import Mathlib

/-!
# Join-visitor resolution of dplyr (`src/join.cpp`)

A shallow embedding of `src/join.cpp`: the choice of the comparison strategy
(`JoinVisitor`) for a pair of columns, together with the text normalisation
(`reencode_char`, `reencode_factor`) and the warning helpers it uses.

R values are modelled by their storage type, their data and their attribute
pairlist.  Warnings raised through `Rf_warningcall` are collected in a list, a
call of `stop` is an `Except.error`.
-/

set_option autoImplicit false

namespace dplyr

/-! ## R values -/

/-- Storage types (`TYPEOF`) of the values a data-frame column can have. -/
inductive SEXPTYPE where
  | NILSXP
  | LGLSXP
  | INTSXP
  | REALSXP
  | CPLXSXP
  | STRSXP
  | VECSXP
  | RAWSXP
  deriving DecidableEq, Repr

/-- One element of a character vector other than `NA_STRING`: its text and the
two encoding marks that `IS_ASCII` and `IS_UTF8` read. -/
structure CHARSXP where
  chars : String
  is_ascii : Bool
  is_utf8 : Bool
  deriving DecidableEq, Repr

/-- Data of a vector, by storage type.  An element of a character vector is
`none` for `NA_STRING`; integer and logical data are C `int`s (with
`NA_INTEGER = INT_MIN`); doubles are kept as their bit patterns, `join.cpp`
never looks at them. -/
inductive Payload where
  | nil
  | lgl (v : List Int)
  | int (v : List Int)
  | real (v : List Nat)
  | cplx (v : List (Nat × Nat))
  | str (v : List (Option CHARSXP))
  | vec (length : Nat)
  | raw (v : List Nat)
  deriving DecidableEq, Repr

/-- An R value: its data and its attribute pairlist `ATTRIB(x)`, each entry a
tag (a symbol, given by its name) and a value.  Attributes of attribute values
are not modelled. -/
structure SEXP where
  payload : Payload
  attrib : List (String × Payload)
  deriving DecidableEq, Repr

/-- The storage type of a value (`TYPEOF(x)`). -/
def TYPEOF (x : SEXP) : SEXPTYPE :=
  match x.payload with
  | .nil => .NILSXP
  | .lgl _ => .LGLSXP
  | .int _ => .INTSXP
  | .real _ => .REALSXP
  | .cplx _ => .CPLXSXP
  | .str _ => .STRSXP
  | .vec _ => .VECSXP
  | .raw _ => .RAWSXP

/-- The value of the attribute `name` (`Rf_getAttrib`), `Payload.nil` when absent. -/
def Rf_getAttrib (x : SEXP) (name : String) : Payload :=
  match x.attrib.find? (fun a => a.1 == name) with
  | some a => a.2
  | none => .nil

/-- The C string of a character-vector element (`CHAR`); `NA_STRING` holds "NA". -/
def CHAR (s : Option CHARSXP) : String :=
  match s with
  | some c => c.chars
  | none => "NA"

/-- Class test `Rf_inherits(x, name)`: some element of the class attribute is
`name` (the object bit of a value is set exactly when it has a class attribute). -/
def Rf_inherits (x : SEXP) (name : String) : Bool :=
  match Rf_getAttrib x "class" with
  | .str klass => klass.any (fun s => CHAR s == name)
  | _ => false

/-- Factor test `Rf_isFactor(x)`: integer storage and class "factor". -/
def Rf_isFactor (x : SEXP) : Bool :=
  TYPEOF x == .INTSXP && Rf_inherits x "factor"

/-- The `int` data of an integer (or logical) vector. -/
def INTEGER (x : SEXP) : List Int :=
  match x.payload with
  | .int v => v
  | .lgl v => v
  | _ => []

/-- The elements of a character vector. -/
def STRING_PTR (x : SEXP) : List (Option CHARSXP) :=
  match x.payload with
  | .str v => v
  | _ => []

/-- What `join.cpp` takes from the R session and from the rest of the package. -/
structure Host where
  /-- The element built by `String(Rf_translateCharUTF8(s), CE_UTF8)`. -/
  translateCharUTF8 : CHARSXP → CHARSXP
  /-- The R function `attr_equal` of the dplyr namespace, read `as<bool>`. -/
  attr_equal : SEXP → SEXP → Bool
  /-- Conversion `CharacterVector xc(x)` of a value that is not a character vector. -/
  as_character : SEXP → SEXP
  /-- The class label `get_single_class(x)` printed in the error message. -/
  get_single_class : SEXP → String

/-- Modelled from the spec: `get_levels` (declared in `tools/utils.h`) is the
ordered label sequence attached to a categorical column, a character vector. -/
def get_levels (x : SEXP) : SEXP :=
  match Rf_getAttrib x "levels" with
  | .str v => { payload := .str v, attrib := [] }
  | _ => { payload := .str [], attrib := [] }

/-- Modelled from the spec: `same_levels` (declared in `tools/utils.h`) holds
when the two label sequences are identical: same length, same labels, same order. -/
def same_levels (left right : SEXP) : Bool :=
  STRING_PTR (get_levels left) == STRING_PTR (get_levels right)

/-! ## `is_bare_vector` (lines 11-22) -/

/-- Walks the attribute pairlist; only the tags `names` and `comment` are allowed. -/
def is_bare_vector.loop : List (String × Payload) → Bool
  | [] => true
  | att :: rest =>
    let tag := att.1
    if !(tag == "names" || tag == "comment") then false
    else is_bare_vector.loop rest

/-- Translation of `is_bare_vector`. -/
def is_bare_vector (x : SEXP) : Bool :=
  is_bare_vector.loop x.attrib

/-! ## Warnings (lines 24-61) -/

/-- Translation of `warn_bad_var`: the warnings it raises. -/
def warn_bad_var (var_left var_right : String) (message : String) (warn : Bool) : List String :=
  if !warn then []
  else if var_left == var_right then
    ["Variable `" ++ var_left ++ "` " ++ message]
  else
    ["Variable `" ++ var_left ++ "`/`" ++ var_right ++ "` " ++ message]

/-- Translation of `check_attribute_compatibility`: the warnings it raises.
The call of `warn_bad_var` leaves `warn` at its default value `true`. -/
def check_attribute_compatibility (H : Host) (left right : SEXP)
    (name_left name_right : String) : List String :=
  if Rf_inherits left "POSIXct" && Rf_inherits right "POSIXct" then []
  else
    let ok := H.attr_equal left right
    if !ok then
      warn_bad_var name_left name_right "has different attributes on RHS and LHS of join" true
    else []

/-! ## Text normalisation (lines 65-113) -/

/-- The loop condition `xci != NA_STRING && !IS_ASCII(xci) && !IS_UTF8(xci)`. -/
def needs_reencode (xci : Option CHARSXP) : Bool :=
  match xci with
  | none => false
  | some c => !c.is_ascii && !c.is_utf8

/-- Translation of `get_first_reencode_pos`: the index of the first element that
needs re-encoding, the length when there is none. -/
def get_first_reencode_pos : List (Option CHARSXP) → Nat
  | [] => 0
  | xci :: rest => if needs_reencode xci then 0 else get_first_reencode_pos rest + 1

/-- One round of the loop of `reencode_char` (lines 88-91). -/
def reencode_elt (H : Host) (reti : Option CHARSXP) : Option CHARSXP :=
  match reti with
  | none => none
  | some c => if !c.is_ascii && !c.is_utf8 then some (H.translateCharUTF8 c) else some c

/-- The conversion `CharacterVector xc(x)`. -/
def CharacterVector (H : Host) (x : SEXP) : SEXP :=
  if TYPEOF x == .STRSXP then x else H.as_character x

/-- Lines 80-94 of `reencode_char`, below the factor test.  The loop rewrites
each slot from `first` on from its own content, the slots before are kept,
so do the attributes (`Rf_duplicate`). -/
def reencode_char_vector (H : Host) (x : SEXP) : SEXP :=
  let xc := CharacterVector H x
  let first := get_first_reencode_pos (STRING_PTR xc)
  if first ≥ (STRING_PTR xc).length then xc
  else
    { payload := .str ((STRING_PTR xc).take first ++ ((STRING_PTR xc).drop first).map (reencode_elt H)),
      attrib := xc.attrib }

/-- Translation of `reencode_factor`.  The levels go through `reencode_char`;
they are a character vector, so that call runs the part below its factor
test (see `reencode_char_get_levels`).  The result is a fresh vector. -/
def reencode_factor (H : Host) (x : SEXP) : SEXP :=
  let levels := STRING_PTR (reencode_char_vector H (get_levels x))
  let nlevels : Int := levels.length
  { payload := .str ((INTEGER x).map (fun xi =>
      if xi ≤ 0 ∨ xi > nlevels then none else levels.getD (xi - 1).toNat none)),
    attrib := [] }

/-- Translation of `reencode_char`. -/
def reencode_char (H : Host) (x : SEXP) : SEXP :=
  if Rf_isFactor x then reencode_factor H x else reencode_char_vector H x

/-! ## Strategies and errors -/

/-- The strategy objects `join_visitor` constructs, with their template and
constructor arguments. -/
inductive JoinVisitor where
  | DateJoinVisitor (LHS_RTYPE RHS_RTYPE : SEXPTYPE) (ACCEPT_NA_MATCH : Bool)
      (left right : SEXP) (name_left name_right : String)
  | POSIXctJoinVisitor (ACCEPT_NA_MATCH : Bool)
      (left right : SEXP) (name_left name_right : String)
  | JoinVisitorImpl (LHS_RTYPE RHS_RTYPE : SEXPTYPE) (ACCEPT_NA_MATCH : Bool)
      (left right : SEXP) (name_left name_right : String)
  deriving DecidableEq, Repr

/-- The four calls of `stop` in `join.cpp`. -/
inductive JoinError where
  /-- "Date objects should be represented as integer or numeric" -/
  | date_representation
  /-- "cannot join a Date object with an object that is not a Date object" -/
  | date_with_non_date
  /-- "cannot join a POSIXct object with an object that is not a POSIXct object" -/
  | posixct_with_non_posixct
  /-- "Can't join on '%s' x '%s' because of incompatible types (%s / %s)" -/
  | incompatible_types (name_left name_right class_left class_right : String)
  deriving DecidableEq, Repr

/-- The two error classes of the specification. -/
inductive ErrorClass where
  | IncompatibleTypes
  | InvalidRepresentation
  deriving DecidableEq, Repr

/-- The class of each error: a date column of another storage type than integer
or double is an invalid representation, every other failure is a pair of
incompatible types. -/
def JoinError.errorClass : JoinError → ErrorClass
  | .date_representation => .InvalidRepresentation
  | .date_with_non_date => .IncompatibleTypes
  | .posixct_with_non_posixct => .IncompatibleTypes
  | .incompatible_types _ _ _ _ => .IncompatibleTypes

/-- What a call of `join_visitor` does: the warnings its own statements raise,
then the strategy it returns or the error it stops with.  The constructors of
the strategy classes are defined in `dplyr/JoinVisitorImpl.h`, outside this
file; a strategy is recorded by its class and its arguments. -/
structure Resolution where
  warnings : List String
  result : Except JoinError JoinVisitor

/-! ## `date_join_visitor` (lines 115-137) -/

/-- Translation of `date_join_visitor_right<LHS_RTYPE, ACCEPT_NA_MATCH>`. -/
def date_join_visitor_right (LHS_RTYPE : SEXPTYPE) (ACCEPT_NA_MATCH : Bool)
    (left right : SEXP) (name_left name_right : String) : Except JoinError JoinVisitor :=
  match TYPEOF right with
  | .INTSXP =>
    .ok (.DateJoinVisitor LHS_RTYPE .INTSXP ACCEPT_NA_MATCH left right name_left name_right)
  | .REALSXP =>
    .ok (.DateJoinVisitor LHS_RTYPE .REALSXP ACCEPT_NA_MATCH left right name_left name_right)
  | _ => .error .date_representation

/-- Translation of `date_join_visitor<ACCEPT_NA_MATCH>`. -/
def date_join_visitor (ACCEPT_NA_MATCH : Bool)
    (left right : SEXP) (name_left name_right : String) : Except JoinError JoinVisitor :=
  match TYPEOF left with
  | .INTSXP => date_join_visitor_right .INTSXP ACCEPT_NA_MATCH left right name_left name_right
  | .REALSXP => date_join_visitor_right .REALSXP ACCEPT_NA_MATCH left right name_left name_right
  | _ => .error .date_representation

/-! ## `join_visitor` (lines 139-299) -/

/-- The body of `case LGLSXP` of the switch on `TYPEOF(left)` (lines 246-259):
the strategy it returns, `none` when it leaves the switch through `break`. -/
def join_visitor.case_LGLSXP (ACCEPT_NA_MATCH : Bool)
    (left right : SEXP) (name_left name_right : String) : Option (List String × JoinVisitor) :=
  match TYPEOF right with
  | .LGLSXP =>
    some ([], .JoinVisitorImpl .LGLSXP .LGLSXP ACCEPT_NA_MATCH left right name_left name_right)
  | .INTSXP =>
    some ([], .JoinVisitorImpl .LGLSXP .INTSXP ACCEPT_NA_MATCH left right name_left name_right)
  | .REALSXP =>
    some ([], .JoinVisitorImpl .LGLSXP .REALSXP ACCEPT_NA_MATCH left right name_left name_right)
  | _ => none

/-- The switch on `TYPEOF(left)` (lines 169-286): the warnings raised and the
strategy returned, `none` when control leaves the switch and reaches the final
`stop`. -/
def join_visitor.switch (H : Host) (ACCEPT_NA_MATCH : Bool)
    (left right : SEXP) (name_left name_right : String) (warn_ : Bool) :
    Option (List String × JoinVisitor) :=
  match TYPEOF left with
  | .CPLXSXP =>
    match TYPEOF right with
    | .CPLXSXP =>
      some ([], .JoinVisitorImpl .CPLXSXP .CPLXSXP ACCEPT_NA_MATCH left right name_left name_right)
    | _ => none
  | .INTSXP =>
    let lhs_factor := Rf_inherits left "factor"
    match TYPEOF right with
    | .INTSXP =>
      let rhs_factor := Rf_inherits right "factor"
      if lhs_factor && rhs_factor then
        if same_levels left right then
          some ([], .JoinVisitorImpl .INTSXP .INTSXP ACCEPT_NA_MATCH left right name_left name_right)
        else
          some (warn_bad_var name_left name_right
                  "joining factors with different levels, coercing to character vector" warn_,
                .JoinVisitorImpl .STRSXP .STRSXP ACCEPT_NA_MATCH
                  (reencode_char H left) (reencode_char H right) name_left name_right)
      else if !lhs_factor && !rhs_factor then
        some ([], .JoinVisitorImpl .INTSXP .INTSXP ACCEPT_NA_MATCH left right name_left name_right)
      else none
    | .REALSXP =>
      if !lhs_factor && is_bare_vector right then
        some ([], .JoinVisitorImpl .INTSXP .REALSXP ACCEPT_NA_MATCH left right name_left name_right)
      else none
    | .LGLSXP =>
      if !lhs_factor then
        some ([], .JoinVisitorImpl .INTSXP .LGLSXP ACCEPT_NA_MATCH left right name_left name_right)
      else none
    | .STRSXP =>
      if lhs_factor then
        some (warn_bad_var name_left name_right
                "joining factor and character vector, coercing into character vector" warn_,
              .JoinVisitorImpl .STRSXP .STRSXP ACCEPT_NA_MATCH
                (reencode_char H left) (reencode_char H right) name_left name_right)
      else none
    | _ => none
  | .REALSXP =>
    match TYPEOF right with
    | .REALSXP =>
      some ([], .JoinVisitorImpl .REALSXP .REALSXP ACCEPT_NA_MATCH left right name_left name_right)
    | .INTSXP =>
      some ([], .JoinVisitorImpl .REALSXP .INTSXP ACCEPT_NA_MATCH left right name_left name_right)
    | _ =>
      -- line 245 closes `case REALSXP` without a `break`: control runs on into `case LGLSXP`
      join_visitor.case_LGLSXP ACCEPT_NA_MATCH left right name_left name_right
  | .LGLSXP => join_visitor.case_LGLSXP ACCEPT_NA_MATCH left right name_left name_right
  | .STRSXP =>
    match TYPEOF right with
    | .INTSXP =>
      if Rf_inherits right "factor" then
        some (warn_bad_var name_left name_right
                "joining character vector and factor, coercing into character vector" warn_,
              .JoinVisitorImpl .STRSXP .STRSXP ACCEPT_NA_MATCH
                (reencode_char H left) (reencode_char H right) name_left name_right)
      else none
    | .STRSXP =>
      some ([], .JoinVisitorImpl .STRSXP .STRSXP ACCEPT_NA_MATCH
                  (reencode_char H left) (reencode_char H right) name_left name_right)
    | _ => none
  | _ => none

/-- Translation of the template `join_visitor<ACCEPT_NA_MATCH>` (lines 139-292). -/
def join_visitor_template (H : Host) (ACCEPT_NA_MATCH : Bool)
    (left right : SEXP) (name_left name_right : String) (warn_ : Bool) : Resolution :=
  let lhs_date := Rf_inherits left "Date"
  let rhs_date := Rf_inherits right "Date"
  match lhs_date.toNat + rhs_date.toNat with
  | 2 => ⟨[], date_join_visitor ACCEPT_NA_MATCH left right name_left name_right⟩
  | 1 => ⟨[], .error .date_with_non_date⟩
  | _ =>
    let lhs_time := Rf_inherits left "POSIXct"
    let rhs_time := Rf_inherits right "POSIXct"
    match lhs_time.toNat + rhs_time.toNat with
    | 2 => ⟨[], .ok (.POSIXctJoinVisitor ACCEPT_NA_MATCH left right name_left name_right)⟩
    | 1 => ⟨[], .error .posixct_with_non_posixct⟩
    | _ =>
      match join_visitor.switch H ACCEPT_NA_MATCH left right name_left name_right warn_ with
      | some (warnings, visitor) => ⟨warnings, .ok visitor⟩
      | none =>
        ⟨[], .error (.incompatible_types name_left name_right
                      (H.get_single_class left) (H.get_single_class right))⟩

/-- Translation of `join_visitor` (lines 294-299). -/
def join_visitor (H : Host) (left right : SEXP) (left_name right_name : String)
    (warn accept_na_match : Bool) : Resolution :=
  if accept_na_match then
    join_visitor_template H true left right left_name right_name warn
  else
    join_visitor_template H false left right left_name right_name warn

/-- The text of each error, as passed to `stop`. -/
def JoinError.message : JoinError → String
  | .date_representation => "Date objects should be represented as integer or numeric"
  | .date_with_non_date => "cannot join a Date object with an object that is not a Date object"
  | .posixct_with_non_posixct =>
    "cannot join a POSIXct object with an object that is not a POSIXct object"
  | .incompatible_types name_left name_right class_left class_right =>
    "Can\x27t join on \x27" ++ name_left ++ "\x27 x \x27" ++ name_right ++
      "\x27 because of incompatible types (" ++ class_left ++ " / " ++ class_right ++ ")"

/-! ## Readings of the strategies and of the specification -/

/-- The missing integer `NA_INTEGER`, the C constant `INT_MIN`. -/
def NA_INTEGER : Int := -2147483648

/-- Whole-column normalisation in the words of the specification, to be compared
with `reencode_char`: each value that is not missing and not in a canonical
encoding (ASCII or UTF-8) is re-encoded; a missing value and a value already
canonical are left untouched. -/
def normalize_text_whole_column (H : Host) (c : List (Option CHARSXP)) :
    List (Option CHARSXP) :=
  c.map (fun v =>
    match v with
    | none => none
    | some s => if s.is_ascii || s.is_utf8 then some s else some (H.translateCharUTF8 s))

/-- The left storage type a strategy is instantiated with (its template argument
`LHS_RTYPE`); the timestamp strategy has none. -/
def JoinVisitor.LHS_RTYPE : JoinVisitor → Option SEXPTYPE
  | .DateJoinVisitor LHS _ _ _ _ _ _ => some LHS
  | .POSIXctJoinVisitor _ _ _ _ _ => none
  | .JoinVisitorImpl LHS _ _ _ _ _ _ => some LHS

/-- The right storage type a strategy is instantiated with (its template argument
`RHS_RTYPE`); the timestamp strategy has none. -/
def JoinVisitor.RHS_RTYPE : JoinVisitor → Option SEXPTYPE
  | .DateJoinVisitor _ RHS _ _ _ _ _ => some RHS
  | .POSIXctJoinVisitor _ _ _ _ _ => none
  | .JoinVisitorImpl _ RHS _ _ _ _ _ => some RHS

/-- The left column a strategy is bound to (its first constructor argument). -/
def JoinVisitor.left : JoinVisitor → SEXP
  | .DateJoinVisitor _ _ _ left _ _ _ => left
  | .POSIXctJoinVisitor _ left _ _ _ => left
  | .JoinVisitorImpl _ _ _ left _ _ _ => left

/-- The right column a strategy is bound to (its second constructor argument). -/
def JoinVisitor.right : JoinVisitor → SEXP
  | .DateJoinVisitor _ _ _ _ right _ _ => right
  | .POSIXctJoinVisitor _ _ right _ _ => right
  | .JoinVisitorImpl _ _ _ _ right _ _ => right

/-! ## Sample values -/

/-- A host whose conversion marks the element as UTF-8 and whose `attr_equal`
compares the attribute lists. -/
def sample_host : Host where
  translateCharUTF8 := fun c => { chars := c.chars, is_ascii := false, is_utf8 := true }
  attr_equal := fun left right => left.attrib == right.attrib
  as_character := fun x => { payload := .str [], attrib := x.attrib }
  get_single_class := fun x =>
    match TYPEOF x with
    | .LGLSXP => "logical"
    | .INTSXP => "integer"
    | .REALSXP => "numeric"
    | .CPLXSXP => "complex"
    | .STRSXP => "character"
    | _ => "list"

/-- An ASCII element of a character vector. -/
def ascii (s : String) : Option CHARSXP :=
  some { chars := s, is_ascii := true, is_utf8 := false }

/-- The integer column `c(1L, 2L, 3L)`. -/
def sample_int : SEXP := { payload := .int [1, 2, 3], attrib := [] }

/-- The double column `c(1, 2, 3)`, by bit patterns. -/
def sample_dbl : SEXP :=
  { payload := .real [4607182418800017408, 4611686018427387904, 4613937818241073152],
    attrib := [] }

/-- The logical column `c(TRUE, FALSE, TRUE)`. -/
def sample_lgl : SEXP := { payload := .lgl [1, 0, 1], attrib := [] }

/-- The character column `c("x", "z")`. -/
def sample_chr : SEXP := { payload := .str [ascii "x", ascii "z"], attrib := [] }

/-- The integer column `c(1L, 2L, 3L)` carrying a `label` attribute. -/
def sample_int_labelled : SEXP :=
  { payload := .int [1, 2, 3], attrib := [("label", .str [ascii "id"])] }

/-- The double column `c(1, 2, 3)` carrying a `label` attribute. -/
def sample_dbl_labelled : SEXP :=
  { payload := .real [4607182418800017408, 4611686018427387904, 4613937818241073152],
    attrib := [("label", .str [ascii "id"])] }

/-- A factor with the given codes and levels. -/
def sample_factor (codes : List Int) (levels : List String) : SEXP :=
  { payload := .int codes,
    attrib := [("levels", .str (levels.map ascii)), ("class", .str [ascii "factor"])] }

/-- A vector with the given data and class attribute. -/
def sample_classed (data : Payload) (klass : List String) : SEXP :=
  { payload := data, attrib := [("class", .str (klass.map ascii))] }

/-- The timestamp column `as.POSIXct(1, tz)`: a double of class POSIXct with a
time-zone attribute. -/
def sample_posixct (tz : String) : SEXP :=
  { payload := .real [4607182418800017408],
    attrib := [("class", .str [ascii "POSIXct", ascii "POSIXt"]), ("tzone", .str [ascii tz])] }

/-- An element of a character vector marked neither ASCII nor UTF-8. -/
def latin1 (s : String) : Option CHARSXP :=
  some { chars := s, is_ascii := false, is_utf8 := false }

/-- A named character column with two elements that are neither ASCII nor UTF-8
and a missing one. -/
def sample_chr_latin1 : SEXP :=
  { payload := .str [ascii "a", latin1 "caf\xe9", none, latin1 "na\xefve"],
    attrib := [("names", .str [ascii "p", ascii "q", ascii "r", ascii "s"])] }

/-! ## Auxiliary facts -/

/-- The public entry point is the template at its flag. -/
theorem join_visitor_eq_template (H : Host) (left right : SEXP) (nl nr : String)
    (warn na : Bool) :
    join_visitor H left right nl nr warn na =
      join_visitor_template H na left right nl nr warn := by
  cases na <;> rfl

/-- With no Date and no POSIXct tag on either side, the outcome is that of the
switch on the storage types. -/
theorem join_visitor_untagged (H : Host) (left right : SEXP) (nl nr : String)
    (warn na : Bool)
    (hld : Rf_inherits left "Date" = false) (hrd : Rf_inherits right "Date" = false)
    (hlt : Rf_inherits left "POSIXct" = false) (hrt : Rf_inherits right "POSIXct" = false) :
    join_visitor H left right nl nr warn na =
      match join_visitor.switch H na left right nl nr warn with
      | some (warnings, visitor) => ⟨warnings, .ok visitor⟩
      | none =>
        ⟨[], .error (.incompatible_types nl nr
                      (H.get_single_class left) (H.get_single_class right))⟩ := by
  rw [join_visitor_eq_template]
  simp [join_visitor_template, hld, hrd, hlt, hrt]

/-- The attribute walk accepts a pairlist exactly when each tag is `names` or `comment`. -/
theorem is_bare_vector_loop_iff (atts : List (String × Payload)) :
    is_bare_vector.loop atts = true ↔ ∀ a ∈ atts, a.1 = "names" ∨ a.1 = "comment" := by
  induction atts with
  | nil => simp [is_bare_vector.loop]
  | cons att rest ih =>
    by_cases h : att.1 = "names" ∨ att.1 = "comment"
    · simp [is_bare_vector.loop, h, ih]
    · simp [is_bare_vector.loop, h]

/-- A vector is bare exactly when each of its attribute tags is `names` or `comment`. -/
theorem is_bare_vector_iff (x : SEXP) :
    is_bare_vector x = true ↔ ∀ a ∈ x.attrib, a.1 = "names" ∨ a.1 = "comment" :=
  is_bare_vector_loop_iff x.attrib

/-- The levels of a factor are a character vector, never a factor. -/
theorem Rf_isFactor_get_levels (x : SEXP) : Rf_isFactor (get_levels x) = false := by
  unfold get_levels
  split <;> rfl

/-- On the levels of a factor `reencode_char` runs the part below its factor
test: this is the call made by `reencode_factor`. -/
theorem reencode_char_get_levels (H : Host) (x : SEXP) :
    reencode_char H (get_levels x) = reencode_char_vector H (get_levels x) := by
  simp [reencode_char, Rf_isFactor_get_levels]

/-- On a factor `reencode_char` is `reencode_factor`. -/
theorem reencode_char_of_factor (H : Host) (x : SEXP)
    (hx : TYPEOF x = .INTSXP) (hf : Rf_inherits x "factor" = true) :
    reencode_char H x = reencode_factor H x := by
  simp [reencode_char, Rf_isFactor, hx, hf]

/-! ## The kind-pair matrix -/

/-- Every pair of storage types that the matrix does not list, other than
Double/Logical, leaves the switch and reaches the final `stop`. -/
theorem unlisted_pairs_fail (H : Host) (left right : SEXP) (nl nr : String)
    (warn na : Bool)
    (hld : Rf_inherits left "Date" = false) (hrd : Rf_inherits right "Date" = false)
    (hlt : Rf_inherits left "POSIXct" = false) (hrt : Rf_inherits right "POSIXct" = false)
    (hk : (TYPEOF left, TYPEOF right) ∉
      [(SEXPTYPE.CPLXSXP, SEXPTYPE.CPLXSXP), (.INTSXP, .INTSXP), (.INTSXP, .REALSXP),
       (.INTSXP, .LGLSXP), (.INTSXP, .STRSXP), (.REALSXP, .REALSXP), (.REALSXP, .INTSXP),
       (.LGLSXP, .LGLSXP), (.LGLSXP, .INTSXP), (.LGLSXP, .REALSXP), (.STRSXP, .INTSXP),
       (.STRSXP, .STRSXP)])
    (hfb : (TYPEOF left, TYPEOF right) ≠ (.REALSXP, .LGLSXP)) :
    join_visitor H left right nl nr warn na =
      ⟨[], .error (.incompatible_types nl nr
                    (H.get_single_class left) (H.get_single_class right))⟩ := by
  rw [join_visitor_untagged H left right nl nr warn na hld hrd hlt hrt]
  cases hl : TYPEOF left <;> cases hr : TYPEOF right <;>
    simp [join_visitor.switch, join_visitor.case_LGLSXP, hl, hr] at hk hfb ⊢

/-- C1: a pair outside the matrix should fail with the incompatible-types
error, and Double/Logical is such a pair.  The code does not fail on it: for
every double left column and logical right column, neither tagged Date nor
POSIXct, `join_visitor` returns the strategy `JoinVisitorImpl<LGLSXP, LGLSXP>`
bound to the two columns, because `case REALSXP` runs on into `case LGLSXP`. -/
theorem float_boolean_resolves (H : Host) (left right : SEXP) (nl nr : String)
    (warn na : Bool)
    (hld : Rf_inherits left "Date" = false) (hrd : Rf_inherits right "Date" = false)
    (hlt : Rf_inherits left "POSIXct" = false) (hrt : Rf_inherits right "POSIXct" = false)
    (hl : TYPEOF left = .REALSXP) (hr : TYPEOF right = .LGLSXP) :
    join_visitor H left right nl nr warn na =
      ⟨[], .ok (.JoinVisitorImpl .LGLSXP .LGLSXP na left right nl nr)⟩ := by
  rw [join_visitor_untagged H left right nl nr warn na hld hrd hlt hrt]
  simp [join_visitor.switch, join_visitor.case_LGLSXP, hl, hr]

/-- C1, at the columns `c(1, 2, 3)` and `c(TRUE, FALSE, TRUE)`. -/
theorem float_boolean_resolves_witness :
    join_visitor sample_host sample_dbl sample_lgl "x" "y" true false =
      ⟨[], .ok (.JoinVisitorImpl .LGLSXP .LGLSXP false sample_dbl sample_lgl "x" "y")⟩ :=
  float_boolean_resolves sample_host sample_dbl sample_lgl "x" "y" true false
    rfl rfl rfl rfl rfl rfl

/-- C2: for columns tagged neither Date nor POSIXct whose storage types are
Complex/Complex, Integer/Integer with neither side a factor, Integer/Logical
with the left not a factor, Double/Double, Double/Integer, Logical/Logical,
Logical/Integer or Logical/Double, `join_visitor` raises no warning and returns
the direct strategy of exactly that pair of storage types, bound to the two
columns as given. -/
theorem direct_pairs_resolve (H : Host) (left right : SEXP) (nl nr : String)
    (warn na : Bool)
    (hld : Rf_inherits left "Date" = false) (hrd : Rf_inherits right "Date" = false)
    (hlt : Rf_inherits left "POSIXct" = false) (hrt : Rf_inherits right "POSIXct" = false)
    (hk : (TYPEOF left = .CPLXSXP ∧ TYPEOF right = .CPLXSXP) ∨
          (TYPEOF left = .INTSXP ∧ TYPEOF right = .INTSXP ∧
            Rf_inherits left "factor" = false ∧ Rf_inherits right "factor" = false) ∨
          (TYPEOF left = .INTSXP ∧ TYPEOF right = .LGLSXP ∧
            Rf_inherits left "factor" = false) ∨
          (TYPEOF left = .REALSXP ∧ TYPEOF right = .REALSXP) ∨
          (TYPEOF left = .REALSXP ∧ TYPEOF right = .INTSXP) ∨
          (TYPEOF left = .LGLSXP ∧ TYPEOF right = .LGLSXP) ∨
          (TYPEOF left = .LGLSXP ∧ TYPEOF right = .INTSXP) ∨
          (TYPEOF left = .LGLSXP ∧ TYPEOF right = .REALSXP)) :
    join_visitor H left right nl nr warn na =
      ⟨[], .ok (.JoinVisitorImpl (TYPEOF left) (TYPEOF right) na left right nl nr)⟩ := by
  rw [join_visitor_untagged H left right nl nr warn na hld hrd hlt hrt]
  rcases hk with ⟨hl, hr⟩ | ⟨hl, hr, hlf, hrf⟩ | ⟨hl, hr, hlf⟩ | ⟨hl, hr⟩ | ⟨hl, hr⟩ |
    ⟨hl, hr⟩ | ⟨hl, hr⟩ | ⟨hl, hr⟩ <;>
  simp [join_visitor.switch, join_visitor.case_LGLSXP, *]

/-- C2, at the columns `c(1, 2, 3)` and `c(1L, 2L, 3L)`. -/
theorem direct_pairs_resolve_witness :
    join_visitor sample_host sample_dbl sample_int "x" "y" true false =
      ⟨[], .ok (.JoinVisitorImpl (TYPEOF sample_dbl) (TYPEOF sample_int) false
                  sample_dbl sample_int "x" "y")⟩ :=
  direct_pairs_resolve sample_host sample_dbl sample_int "x" "y" true false rfl rfl rfl rfl
    (Or.inr (Or.inr (Or.inr (Or.inr (Or.inl ⟨rfl, rfl⟩)))))

/-- C3: for an integer left column and a double right column, tagged neither
Date nor POSIXct, `join_visitor` returns the direct Integer/Double strategy on
the two columns as given if and only if the left is not a factor and the right
is a bare vector; in every other case it stops with the incompatible-types
error.  A vector is bare exactly when each of its attribute tags is `names`
or `comment`. -/
theorem integer_float_iff_bare (H : Host) (left right : SEXP) (nl nr : String)
    (warn na : Bool)
    (hld : Rf_inherits left "Date" = false) (hrd : Rf_inherits right "Date" = false)
    (hlt : Rf_inherits left "POSIXct" = false) (hrt : Rf_inherits right "POSIXct" = false)
    (hl : TYPEOF left = .INTSXP) (hr : TYPEOF right = .REALSXP) :
    (is_bare_vector right = true ↔ ∀ a ∈ right.attrib, a.1 = "names" ∨ a.1 = "comment") ∧
    (join_visitor H left right nl nr warn na =
        ⟨[], .ok (.JoinVisitorImpl .INTSXP .REALSXP na left right nl nr)⟩ ↔
      (Rf_inherits left "factor" = false ∧ is_bare_vector right = true)) ∧
    (¬ (Rf_inherits left "factor" = false ∧ is_bare_vector right = true) →
      join_visitor H left right nl nr warn na =
        ⟨[], .error (.incompatible_types nl nr
                      (H.get_single_class left) (H.get_single_class right))⟩) := by
  refine ⟨is_bare_vector_iff right, ?_, ?_⟩
  · rw [join_visitor_untagged H left right nl nr warn na hld hrd hlt hrt]
    cases hf : Rf_inherits left "factor" <;> cases hb : is_bare_vector right <;>
      simp [join_visitor.switch, hl, hr, hf, hb]
  · rw [join_visitor_untagged H left right nl nr warn na hld hrd hlt hrt]
    cases hf : Rf_inherits left "factor" <;> cases hb : is_bare_vector right <;>
      simp [join_visitor.switch, hl, hr, hf, hb]

/-- C3, at the columns `c(1L, 2L, 3L)` and `c(1, 2, 3)`: the pair resolves. -/
theorem integer_float_iff_bare_witness :
    join_visitor sample_host sample_int sample_dbl "x" "y" true true =
      ⟨[], .ok (.JoinVisitorImpl .INTSXP .REALSXP true sample_int sample_dbl "x" "y")⟩ :=
  (integer_float_iff_bare sample_host sample_int sample_dbl "x" "y" true true
    rfl rfl rfl rfl rfl rfl).2.1.mpr ⟨rfl, rfl⟩

/-- C4 as stated fails: the integer column `c(1L, 2L, 3L)` with a `label`
attribute and the bare double column `c(1, 2, 3)`, neither tagged Date nor
POSIXct, resolve to the direct Integer/Double strategy; no error is raised. -/
theorem attributed_left_counterexample :
    TYPEOF sample_int_labelled = .INTSXP ∧
    (∃ a ∈ sample_int_labelled.attrib, a.1 ≠ "names" ∧ a.1 ≠ "comment") ∧
    TYPEOF sample_dbl = .REALSXP ∧
    Rf_inherits sample_int_labelled "Date" = false ∧
    Rf_inherits sample_int_labelled "POSIXct" = false ∧
    Rf_inherits sample_dbl "Date" = false ∧
    Rf_inherits sample_dbl "POSIXct" = false ∧
    join_visitor sample_host sample_int_labelled sample_dbl "x" "y" true true =
      ⟨[], .ok (.JoinVisitorImpl .INTSXP .REALSXP true
                  sample_int_labelled sample_dbl "x" "y")⟩ ∧
    ∀ e, (join_visitor sample_host sample_int_labelled sample_dbl "x" "y" true true).result
      ≠ .error e := by
  refine ⟨rfl, ⟨("label", .str [ascii "id"]), ?_, ?_, ?_⟩, rfl, rfl, rfl, rfl, rfl, rfl, ?_⟩
  · simp [sample_int_labelled]
  · decide
  · decide
  · intro e h
    cases h

/-- C4, amended: for an integer left column and a double right column, tagged
neither Date nor POSIXct, where the right column carries an attribute other
than `names` and `comment`, `join_visitor` stops with the incompatible-types
error: the bare-vector guard reads the right column. -/
theorem attributed_right_blocks (H : Host) (left right : SEXP) (nl nr : String)
    (warn na : Bool)
    (hld : Rf_inherits left "Date" = false) (hrd : Rf_inherits right "Date" = false)
    (hlt : Rf_inherits left "POSIXct" = false) (hrt : Rf_inherits right "POSIXct" = false)
    (hl : TYPEOF left = .INTSXP) (hr : TYPEOF right = .REALSXP)
    (hattr : ∃ a ∈ right.attrib, a.1 ≠ "names" ∧ a.1 ≠ "comment") :
    join_visitor H left right nl nr warn na =
      ⟨[], .error (.incompatible_types nl nr
                    (H.get_single_class left) (H.get_single_class right))⟩ := by
  have hb : is_bare_vector right = false := by
    cases hbv : is_bare_vector right
    · rfl
    · obtain ⟨a, ha, h1, h2⟩ := hattr
      rcases (is_bare_vector_iff right).mp hbv a ha with h | h
      · exact absurd h h1
      · exact absurd h h2
  rw [join_visitor_untagged H left right nl nr warn na hld hrd hlt hrt]
  simp [join_visitor.switch, hl, hr, hb]

/-- C4 amended, at the columns `c(1L, 2L, 3L)` and a labelled `c(1, 2, 3)`. -/
theorem attributed_right_blocks_witness :
    join_visitor sample_host sample_int sample_dbl_labelled "x" "y" true true =
      ⟨[], .error (.incompatible_types "x" "y" "integer" "numeric")⟩ :=
  attributed_right_blocks sample_host sample_int sample_dbl_labelled "x" "y" true true
    rfl rfl rfl rfl rfl rfl
    ⟨("label", .str [ascii "id"]), by simp [sample_dbl_labelled], by decide, by decide⟩


/-! ## Date and timestamp columns -/

/-- C6: for two columns both tagged Date, if the storage type of each is
integer or double, `join_visitor` raises no warning and returns the date
strategy of exactly that pair of storage types, bound to the two columns as
given; if the storage type of either is another one, it stops with the error
"Date objects should be represented as integer or numeric", of the class
InvalidRepresentation. -/
theorem date_pairs_resolve (H : Host) (left right : SEXP) (nl nr : String) (warn na : Bool)
    (hld : Rf_inherits left "Date" = true) (hrd : Rf_inherits right "Date" = true) :
    ((TYPEOF left = .INTSXP ∨ TYPEOF left = .REALSXP) ∧
      (TYPEOF right = .INTSXP ∨ TYPEOF right = .REALSXP) →
        join_visitor H left right nl nr warn na =
          ⟨[], .ok (.DateJoinVisitor (TYPEOF left) (TYPEOF right) na left right nl nr)⟩) ∧
    (¬ ((TYPEOF left = .INTSXP ∨ TYPEOF left = .REALSXP) ∧
        (TYPEOF right = .INTSXP ∨ TYPEOF right = .REALSXP)) →
        join_visitor H left right nl nr warn na = ⟨[], .error .date_representation⟩) ∧
    JoinError.date_representation.errorClass = .InvalidRepresentation ∧
    JoinError.date_representation.message =
      "Date objects should be represented as integer or numeric" := by
  rw [join_visitor_eq_template]
  refine ⟨?_, ?_, rfl, rfl⟩ <;>
  · cases hl : TYPEOF left <;> cases hr : TYPEOF right <;>
      simp [join_visitor_template, date_join_visitor, date_join_visitor_right, hld, hrd, hl, hr]

/-- C6, at a double Date column and an integer Date column. -/
theorem date_pairs_resolve_witness :
    join_visitor sample_host (sample_classed (.real [4675465368861016064]) ["Date"])
        (sample_classed (.int [17000]) ["Date"]) "x" "y" true true =
      ⟨[], .ok (.DateJoinVisitor
                  (TYPEOF (sample_classed (.real [4675465368861016064]) ["Date"]))
                  (TYPEOF (sample_classed (.int [17000]) ["Date"])) true
                  (sample_classed (.real [4675465368861016064]) ["Date"])
                  (sample_classed (.int [17000]) ["Date"]) "x" "y")⟩ :=
  (date_pairs_resolve sample_host (sample_classed (.real [4675465368861016064]) ["Date"])
    (sample_classed (.int [17000]) ["Date"]) "x" "y" true true rfl rfl).1
    ⟨Or.inr rfl, Or.inl rfl⟩

/-- C7: for two columns both tagged POSIXct and neither tagged Date,
`join_visitor` returns the timestamp strategy bound to the two columns as
given, and `check_attribute_compatibility` raises no warning on the pair,
whatever their attributes and whatever `attr_equal` answers. -/
theorem timestamp_pairs_resolve (H : Host) (left right : SEXP) (nl nr : String)
    (warn na : Bool)
    (hld : Rf_inherits left "Date" = false) (hrd : Rf_inherits right "Date" = false)
    (hlt : Rf_inherits left "POSIXct" = true) (hrt : Rf_inherits right "POSIXct" = true) :
    join_visitor H left right nl nr warn na =
      ⟨[], .ok (.POSIXctJoinVisitor na left right nl nr)⟩ ∧
    check_attribute_compatibility H left right nl nr = [] := by
  rw [join_visitor_eq_template]
  simp [join_visitor_template, check_attribute_compatibility, hld, hrd, hlt, hrt]

/-- C7, at two timestamp columns of different time zones, on which the sample
`attr_equal` answers `false`. -/
theorem timestamp_pairs_resolve_witness :
    join_visitor sample_host (sample_posixct "UTC") (sample_posixct "CET") "x" "y" true true =
      ⟨[], .ok (.POSIXctJoinVisitor true (sample_posixct "UTC") (sample_posixct "CET")
                  "x" "y")⟩ ∧
    check_attribute_compatibility sample_host (sample_posixct "UTC") (sample_posixct "CET")
      "x" "y" = [] :=
  timestamp_pairs_resolve sample_host (sample_posixct "UTC") (sample_posixct "CET")
    "x" "y" true true rfl rfl rfl rfl


/-! ## Factors -/

/-- C8: for two factors (integer storage, class factor, tagged neither Date
nor POSIXct) whose label sequences are identical, `join_visitor` raises no
warning for either value of `warn` and returns the Integer/Integer strategy
bound to the two columns as given; the strategy is never a Text/Text one. -/
theorem same_levels_factors (H : Host) (left right : SEXP) (nl nr : String)
    (warn na : Bool)
    (hld : Rf_inherits left "Date" = false) (hrd : Rf_inherits right "Date" = false)
    (hlt : Rf_inherits left "POSIXct" = false) (hrt : Rf_inherits right "POSIXct" = false)
    (hl : TYPEOF left = .INTSXP) (hr : TYPEOF right = .INTSXP)
    (hlf : Rf_inherits left "factor" = true) (hrf : Rf_inherits right "factor" = true)
    (hlev : STRING_PTR (get_levels left) = STRING_PTR (get_levels right)) :
    join_visitor H left right nl nr warn na =
      ⟨[], .ok (.JoinVisitorImpl .INTSXP .INTSXP na left right nl nr)⟩ ∧
    ∀ (a : Bool) (l r : SEXP) (n m : String),
      (join_visitor H left right nl nr warn na).result ≠
        .ok (.JoinVisitorImpl .STRSXP .STRSXP a l r n m) := by
  have h : join_visitor H left right nl nr warn na =
      ⟨[], .ok (.JoinVisitorImpl .INTSXP .INTSXP na left right nl nr)⟩ := by
    rw [join_visitor_untagged H left right nl nr warn na hld hrd hlt hrt]
    simp [join_visitor.switch, same_levels, hl, hr, hlf, hrf, hlev]
  refine ⟨h, ?_⟩
  intro a l r n m
  rw [h]
  simp

/-- C9: for two factors (integer storage, class factor, tagged neither Date
nor POSIXct) whose label sequences differ, `join_visitor` returns the Text/Text
strategy bound to `reencode_char(left)` and `reencode_char(right)`, which are
the label expansions `reencode_factor` of the two columns; with `warn` it
raises exactly one warning, "joining factors with different levels, coercing
to character vector" after the one or two names, and none without. -/
theorem different_levels_factors (H : Host) (left right : SEXP) (nl nr : String)
    (warn na : Bool)
    (hld : Rf_inherits left "Date" = false) (hrd : Rf_inherits right "Date" = false)
    (hlt : Rf_inherits left "POSIXct" = false) (hrt : Rf_inherits right "POSIXct" = false)
    (hl : TYPEOF left = .INTSXP) (hr : TYPEOF right = .INTSXP)
    (hlf : Rf_inherits left "factor" = true) (hrf : Rf_inherits right "factor" = true)
    (hlev : STRING_PTR (get_levels left) ≠ STRING_PTR (get_levels right)) :
    join_visitor H left right nl nr warn na =
      ⟨if warn = true then
          [if nl = nr then
            "Variable `" ++ nl ++ "` " ++
              "joining factors with different levels, coercing to character vector"
          else
            "Variable `" ++ nl ++ "`/`" ++ nr ++ "` " ++
              "joining factors with different levels, coercing to character vector"]
        else [],
       .ok (.JoinVisitorImpl .STRSXP .STRSXP na
              (reencode_char H left) (reencode_char H right) nl nr)⟩ ∧
    reencode_char H left = reencode_factor H left ∧
    reencode_char H right = reencode_factor H right := by
  refine ⟨?_, reencode_char_of_factor H left hl hlf, reencode_char_of_factor H right hr hrf⟩
  rw [join_visitor_untagged H left right nl nr warn na hld hrd hlt hrt]
  cases warn <;> by_cases hn : nl = nr <;>
    simp [join_visitor.switch, same_levels, warn_bad_var, hl, hr, hlf, hrf, hlev, hn]

/-- C8, at two factors of levels `c("a", "b")`. -/
theorem same_levels_factors_witness :
    join_visitor sample_host (sample_factor [1, 2] ["a", "b"]) (sample_factor [2, 2] ["a", "b"])
        "x" "y" true true =
      ⟨[], .ok (.JoinVisitorImpl .INTSXP .INTSXP true
                  (sample_factor [1, 2] ["a", "b"]) (sample_factor [2, 2] ["a", "b"])
                  "x" "y")⟩ :=
  (same_levels_factors sample_host (sample_factor [1, 2] ["a", "b"])
    (sample_factor [2, 2] ["a", "b"]) "x" "y" true true
    rfl rfl rfl rfl rfl rfl rfl rfl rfl).1

/-- C9, at factors of levels `c("a", "b")` and `c("b", "a")`. -/
theorem different_levels_factors_witness :
    join_visitor sample_host (sample_factor [1, 2] ["a", "b"]) (sample_factor [1, 2] ["b", "a"])
        "x" "y" true true =
      ⟨["Variable `x`/`y` joining factors with different levels, coercing to character vector"],
       .ok (.JoinVisitorImpl .STRSXP .STRSXP true
              { payload := .str [ascii "a", ascii "b"], attrib := [] }
              { payload := .str [ascii "b", ascii "a"], attrib := [] } "x" "y")⟩ :=
  (different_levels_factors sample_host (sample_factor [1, 2] ["a", "b"])
    (sample_factor [1, 2] ["b", "a"]) "x" "y" true true
    rfl rfl rfl rfl rfl rfl rfl rfl (by decide)).1

/-- C10: for a factor `f` and a character column `t` (neither tagged Date nor
POSIXct), in either orientation, `join_visitor` returns the Text/Text strategy
whose factor side is bound to `reencode_factor(f)` and whose text side to
`reencode_char(t)`; with `warn` it raises exactly one warning, "joining factor
and character vector, coercing into character vector" when the factor is on
the left and "joining character vector and factor, coercing into character
vector" when it is on the right, and none without. -/
theorem factor_with_character (H : Host) (f t : SEXP) (nl nr : String) (warn na : Bool)
    (hfd : Rf_inherits f "Date" = false) (htd : Rf_inherits t "Date" = false)
    (hft : Rf_inherits f "POSIXct" = false) (htt : Rf_inherits t "POSIXct" = false)
    (hf : TYPEOF f = .INTSXP) (hff : Rf_inherits f "factor" = true)
    (ht : TYPEOF t = .STRSXP) :
    join_visitor H f t nl nr warn na =
      ⟨if warn = true then
          [if nl = nr then
            "Variable `" ++ nl ++ "` " ++
              "joining factor and character vector, coercing into character vector"
          else
            "Variable `" ++ nl ++ "`/`" ++ nr ++ "` " ++
              "joining factor and character vector, coercing into character vector"]
        else [],
       .ok (.JoinVisitorImpl .STRSXP .STRSXP na
              (reencode_factor H f) (reencode_char H t) nl nr)⟩ ∧
    join_visitor H t f nl nr warn na =
      ⟨if warn = true then
          [if nl = nr then
            "Variable `" ++ nl ++ "` " ++
              "joining character vector and factor, coercing into character vector"
          else
            "Variable `" ++ nl ++ "`/`" ++ nr ++ "` " ++
              "joining character vector and factor, coercing into character vector"]
        else [],
       .ok (.JoinVisitorImpl .STRSXP .STRSXP na
              (reencode_char H t) (reencode_factor H f) nl nr)⟩ := by
  rw [join_visitor_untagged H f t nl nr warn na hfd htd hft htt,
    join_visitor_untagged H t f nl nr warn na htd hfd htt hft,
    ← reencode_char_of_factor H f hf hff]
  constructor <;> cases warn <;> by_cases hn : nl = nr <;>
    simp [join_visitor.switch, warn_bad_var, hf, hff, ht, hn]

/-- C10, at the factor of levels `c("x", "y")` and the column `c("x", "z")`. -/
theorem factor_with_character_witness :
    join_visitor sample_host (sample_factor [1, 2] ["x", "y"]) sample_chr "x" "y" true true =
      ⟨["Variable `x`/`y` joining factor and character vector, coercing into character vector"],
       .ok (.JoinVisitorImpl .STRSXP .STRSXP true
              { payload := .str [ascii "x", ascii "y"], attrib := [] } sample_chr "x" "y")⟩ ∧
    join_visitor sample_host sample_chr (sample_factor [1, 2] ["x", "y"]) "x" "y" true true =
      ⟨["Variable `x`/`y` joining character vector and factor, coercing into character vector"],
       .ok (.JoinVisitorImpl .STRSXP .STRSXP true
              sample_chr { payload := .str [ascii "x", ascii "y"], attrib := [] } "x" "y")⟩ :=
  factor_with_character sample_host (sample_factor [1, 2] ["x", "y"]) sample_chr "x" "y"
    true true rfl rfl rfl rfl rfl rfl rfl


/-! ## The remaining rows of the matrix -/

/-- C11: for columns tagged neither Date nor POSIXct, `join_visitor` stops with
the incompatible-types error on two integer columns of which exactly one is a
factor, on a factor left column with a double or logical right column, on an
integer left column that is not a factor with a character right column, and on
a character left column with an integer right column that is not a factor. -/
theorem lone_factor_pairs_fail (H : Host) (left right : SEXP) (nl nr : String)
    (warn na : Bool)
    (hld : Rf_inherits left "Date" = false) (hrd : Rf_inherits right "Date" = false)
    (hlt : Rf_inherits left "POSIXct" = false) (hrt : Rf_inherits right "POSIXct" = false)
    (hk : (TYPEOF left = .INTSXP ∧ TYPEOF right = .INTSXP ∧
            Rf_inherits left "factor" ≠ Rf_inherits right "factor") ∨
          (TYPEOF left = .INTSXP ∧ Rf_inherits left "factor" = true ∧
            (TYPEOF right = .REALSXP ∨ TYPEOF right = .LGLSXP)) ∨
          (TYPEOF left = .INTSXP ∧ Rf_inherits left "factor" = false ∧
            TYPEOF right = .STRSXP) ∨
          (TYPEOF left = .STRSXP ∧ TYPEOF right = .INTSXP ∧
            Rf_inherits right "factor" = false)) :
    join_visitor H left right nl nr warn na =
      ⟨[], .error (.incompatible_types nl nr
                    (H.get_single_class left) (H.get_single_class right))⟩ := by
  rw [join_visitor_untagged H left right nl nr warn na hld hrd hlt hrt]
  rcases hk with ⟨hl, hr, hf⟩ | ⟨hl, hf, hr | hr⟩ | ⟨hl, hf, hr⟩ | ⟨hl, hr, hf⟩
  · cases hlf : Rf_inherits left "factor" <;> cases hrf : Rf_inherits right "factor" <;>
      simp [join_visitor.switch, hl, hr, hlf, hrf] at hf ⊢
  all_goals simp [join_visitor.switch, hl, hr, hf]

/-- C11, at a factor and the integer column `c(1L, 2L, 3L)`. -/
theorem lone_factor_pairs_fail_witness :
    join_visitor sample_host (sample_factor [1, 2] ["a", "b"]) sample_int "x" "y" true true =
      ⟨[], .error (.incompatible_types "x" "y" "integer" "integer")⟩ :=
  lone_factor_pairs_fail sample_host (sample_factor [1, 2] ["a", "b"]) sample_int "x" "y"
    true true rfl rfl rfl rfl (Or.inl ⟨rfl, rfl, by decide⟩)

/-- C12: for two character columns (tagged neither Date nor POSIXct)
`join_visitor` raises no warning for either value of `warn` and returns the
Text/Text strategy bound to `reencode_char(left)` and `reencode_char(right)`. -/
theorem character_pairs_resolve (H : Host) (left right : SEXP) (nl nr : String)
    (warn na : Bool)
    (hld : Rf_inherits left "Date" = false) (hrd : Rf_inherits right "Date" = false)
    (hlt : Rf_inherits left "POSIXct" = false) (hrt : Rf_inherits right "POSIXct" = false)
    (hl : TYPEOF left = .STRSXP) (hr : TYPEOF right = .STRSXP) :
    join_visitor H left right nl nr warn na =
      ⟨[], .ok (.JoinVisitorImpl .STRSXP .STRSXP na
                  (reencode_char H left) (reencode_char H right) nl nr)⟩ := by
  rw [join_visitor_untagged H left right nl nr warn na hld hrd hlt hrt]
  simp [join_visitor.switch, hl, hr]

/-- C12, at the column `c("x", "z")` on both sides. -/
theorem character_pairs_resolve_witness :
    join_visitor sample_host sample_chr sample_chr "x" "x" true false =
      ⟨[], .ok (.JoinVisitorImpl .STRSXP .STRSXP false sample_chr sample_chr "x" "x")⟩ :=
  character_pairs_resolve sample_host sample_chr sample_chr "x" "x" true false
    rfl rfl rfl rfl rfl rfl

/-! ## The flags `accept_na_match` and `warn` -/

/-- Two columns tagged Date go to `date_join_visitor`. -/
theorem join_visitor_both_date (H : Host) (left right : SEXP) (nl nr : String)
    (warn na : Bool)
    (hld : Rf_inherits left "Date" = true) (hrd : Rf_inherits right "Date" = true) :
    join_visitor H left right nl nr warn na =
      ⟨[], date_join_visitor na left right nl nr⟩ := by
  rw [join_visitor_eq_template]
  simp [join_visitor_template, hld, hrd]

/-- Exactly one column tagged Date stops with the Date error. -/
theorem join_visitor_one_date (H : Host) (left right : SEXP) (nl nr : String)
    (warn na : Bool) (hd : Rf_inherits left "Date" ≠ Rf_inherits right "Date") :
    join_visitor H left right nl nr warn na = ⟨[], .error .date_with_non_date⟩ := by
  rw [join_visitor_eq_template]
  unfold join_visitor_template
  cases h1 : Rf_inherits left "Date" <;> cases h2 : Rf_inherits right "Date" <;> simp_all

/-- Two columns tagged POSIXct and not Date give the timestamp strategy. -/
theorem join_visitor_both_posixct (H : Host) (left right : SEXP) (nl nr : String)
    (warn na : Bool)
    (hld : Rf_inherits left "Date" = false) (hrd : Rf_inherits right "Date" = false)
    (hlt : Rf_inherits left "POSIXct" = true) (hrt : Rf_inherits right "POSIXct" = true) :
    join_visitor H left right nl nr warn na =
      ⟨[], .ok (.POSIXctJoinVisitor na left right nl nr)⟩ := by
  rw [join_visitor_eq_template]
  simp [join_visitor_template, hld, hrd, hlt, hrt]

/-- Exactly one column tagged POSIXct, none tagged Date, stops with the POSIXct error. -/
theorem join_visitor_one_posixct (H : Host) (left right : SEXP) (nl nr : String)
    (warn na : Bool)
    (hld : Rf_inherits left "Date" = false) (hrd : Rf_inherits right "Date" = false)
    (ht : Rf_inherits left "POSIXct" ≠ Rf_inherits right "POSIXct") :
    join_visitor H left right nl nr warn na = ⟨[], .error .posixct_with_non_posixct⟩ := by
  rw [join_visitor_eq_template]
  unfold join_visitor_template
  cases h1 : Rf_inherits left "POSIXct" <;> cases h2 : Rf_inherits right "POSIXct" <;>
    simp_all

/-- The switch either leaves through `break` for both values of the flag, or
returns one and the same `JoinVisitorImpl` carrying the flag. -/
theorem switch_shape (H : Host) (left right : SEXP) (nl nr : String) (warn : Bool) :
    (∀ b, join_visitor.switch H b left right nl nr warn = none) ∨
    (∃ w LHS RHS l r, ∀ b, join_visitor.switch H b left right nl nr warn =
        some (w, .JoinVisitorImpl LHS RHS b l r nl nr)) := by
  unfold join_visitor.switch join_visitor.case_LGLSXP
  cases TYPEOF left <;> cases TYPEOF right <;> dsimp only <;>
    first
    | exact Or.inl (fun _ => rfl)
    | exact Or.inr ⟨_, _, _, _, _, fun _ => rfl⟩
    | (split_ifs <;>
        first
        | exact Or.inl (fun _ => rfl)
        | exact Or.inr ⟨_, _, _, _, _, fun _ => rfl⟩)

/-- The switch returns the same strategy with and without `warn`, and raises no
warning without it. -/
theorem switch_warn (H : Host) (left right : SEXP) (nl nr : String) (na : Bool) :
    (join_visitor.switch H na left right nl nr false).map Prod.snd =
      (join_visitor.switch H na left right nl nr true).map Prod.snd ∧
    ∀ p, join_visitor.switch H na left right nl nr false = some p → p.1 = [] := by
  unfold join_visitor.switch join_visitor.case_LGLSXP
  cases TYPEOF left <;> cases TYPEOF right <;> dsimp only <;>
    first
    | (refine ⟨rfl, ?_⟩; intro p hp; cases hp; done)
    | (refine ⟨rfl, ?_⟩; intro p hp; cases hp; rfl)
    | (split_ifs <;> refine ⟨rfl, ?_⟩ <;> intro p hp <;> cases hp <;> rfl)

/-- C13: for every pair of columns, names and `warn`, either `join_visitor`
stops with the same error for both values of `accept_na_match`, or it returns
for both the same strategy class at the same pair of storage types, bound to
the same columns and names, whose flag is the value of `accept_na_match`; the
warnings raised are the same.  This covers the date strategies, the timestamp
strategy and every `JoinVisitorImpl`, direct or coerced. -/
theorem accept_na_match_threaded (H : Host) (left right : SEXP) (nl nr : String)
    (warn : Bool) :
    (∃ w e, ∀ b, join_visitor H left right nl nr warn b = ⟨w, .error e⟩) ∨
    (∃ w LHS RHS l r, ∀ b, join_visitor H left right nl nr warn b =
        ⟨w, .ok (.DateJoinVisitor LHS RHS b l r nl nr)⟩) ∨
    (∃ w l r, ∀ b, join_visitor H left right nl nr warn b =
        ⟨w, .ok (.POSIXctJoinVisitor b l r nl nr)⟩) ∨
    (∃ w LHS RHS l r, ∀ b, join_visitor H left right nl nr warn b =
        ⟨w, .ok (.JoinVisitorImpl LHS RHS b l r nl nr)⟩) := by
  by_cases hd : Rf_inherits left "Date" = Rf_inherits right "Date"
  swap
  · exact Or.inl ⟨_, _, fun b => join_visitor_one_date H left right nl nr warn b hd⟩
  cases hld : Rf_inherits left "Date"
  · have hrd : Rf_inherits right "Date" = false := by rw [← hd, hld]
    by_cases ht : Rf_inherits left "POSIXct" = Rf_inherits right "POSIXct"
    swap
    · exact Or.inl ⟨_, _, fun b =>
        join_visitor_one_posixct H left right nl nr warn b hld hrd ht⟩
    cases hlt : Rf_inherits left "POSIXct"
    · have hrt : Rf_inherits right "POSIXct" = false := by rw [← ht, hlt]
      rcases switch_shape H left right nl nr warn with h | ⟨w, LHS, RHS, l, r, h⟩
      · refine Or.inl ⟨[], .incompatible_types nl nr
          (H.get_single_class left) (H.get_single_class right), fun b => ?_⟩
        rw [join_visitor_untagged H left right nl nr warn b hld hrd hlt hrt, h b]
      · refine Or.inr (Or.inr (Or.inr ⟨w, LHS, RHS, l, r, fun b => ?_⟩))
        rw [join_visitor_untagged H left right nl nr warn b hld hrd hlt hrt, h b]
    · have hrt : Rf_inherits right "POSIXct" = true := by rw [← ht, hlt]
      exact Or.inr (Or.inr (Or.inl ⟨_, _, _, fun b =>
        join_visitor_both_posixct H left right nl nr warn b hld hrd hlt hrt⟩))
  · have hrd : Rf_inherits right "Date" = true := by rw [← hd, hld]
    simp only [join_visitor_both_date H left right nl nr warn _ hld hrd]
    unfold date_join_visitor date_join_visitor_right
    cases TYPEOF left <;> cases TYPEOF right <;> dsimp only <;>
      first
      | exact Or.inl ⟨_, _, fun _ => rfl⟩
      | exact Or.inr (Or.inl ⟨_, _, _, _, _, fun _ => rfl⟩)

/-- C14: for every pair of columns, names and `accept_na_match`, `join_visitor`
without `warn` and with `warn` stop with the same error or return the same
strategy bound to the same columns, and without `warn` no warning is raised. -/
theorem warn_only_gates_warnings (H : Host) (left right : SEXP) (nl nr : String)
    (na : Bool) :
    (join_visitor H left right nl nr false na).result =
      (join_visitor H left right nl nr true na).result ∧
    (join_visitor H left right nl nr false na).warnings = [] := by
  by_cases hd : Rf_inherits left "Date" = Rf_inherits right "Date"
  swap
  · simp only [join_visitor_one_date H left right nl nr _ na hd, and_self]
  cases hld : Rf_inherits left "Date"
  · have hrd : Rf_inherits right "Date" = false := by rw [← hd, hld]
    by_cases ht : Rf_inherits left "POSIXct" = Rf_inherits right "POSIXct"
    swap
    · simp only [join_visitor_one_posixct H left right nl nr _ na hld hrd ht, and_self]
    cases hlt : Rf_inherits left "POSIXct"
    · have hrt : Rf_inherits right "POSIXct" = false := by rw [← ht, hlt]
      simp only [join_visitor_untagged H left right nl nr _ na hld hrd hlt hrt]
      obtain ⟨h1, h2⟩ := switch_warn H left right nl nr na
      cases hf : join_visitor.switch H na left right nl nr false with
      | none =>
        cases ht : join_visitor.switch H na left right nl nr true with
        | none => exact ⟨rfl, rfl⟩
        | some q => rw [hf, ht] at h1; cases h1
      | some p =>
        cases ht : join_visitor.switch H na left right nl nr true with
        | none => rw [hf, ht] at h1; cases h1
        | some q =>
          rw [hf, ht] at h1
          simp only [Option.map_some', Option.some.injEq] at h1
          obtain ⟨pw, pv⟩ := p
          obtain ⟨qw, qv⟩ := q
          have hw := h2 _ hf
          dsimp only at h1 hw ⊢
          subst hw
          subst h1
          exact ⟨rfl, rfl⟩
    · have hrt : Rf_inherits right "POSIXct" = true := by rw [← ht, hlt]
      simp only [join_visitor_both_posixct H left right nl nr _ na hld hrd hlt hrt, and_self]
  · have hrd : Rf_inherits right "Date" = true := by rw [← hd, hld]
    simp only [join_visitor_both_date H left right nl nr _ na hld hrd, and_self]

/-! ## Text normalisation -/

/-- The loop body keeps an element that needs no re-encoding. -/
theorem reencode_elt_of_canonical (H : Host) (v : Option CHARSXP)
    (hv : needs_reencode v = false) : reencode_elt H v = v := by
  cases v with
  | none => rfl
  | some s =>
    simp only [needs_reencode] at hv
    simp [reencode_elt, hv]

/-- The first position to re-encode is at most the length. -/
theorem get_first_reencode_pos_le (l : List (Option CHARSXP)) :
    get_first_reencode_pos l ≤ l.length := by
  induction l with
  | nil => simp [get_first_reencode_pos]
  | cons v rest ih =>
    unfold get_first_reencode_pos
    split <;> simp [ih]

/-- The loop body keeps every element before the first position to re-encode. -/
theorem map_take_first (H : Host) (l : List (Option CHARSXP)) :
    (l.take (get_first_reencode_pos l)).map (reencode_elt H) =
      l.take (get_first_reencode_pos l) := by
  induction l with
  | nil => simp [get_first_reencode_pos]
  | cons v rest ih =>
    unfold get_first_reencode_pos
    cases hv : needs_reencode v
    · simp [reencode_elt_of_canonical H v hv, ih]
    · simp

/-- Starting the loop at the first position to re-encode gives the same vector
as running it over every position. -/
theorem first_offender_unobservable (H : Host) (l : List (Option CHARSXP)) :
    l.take (get_first_reencode_pos l) ++ (l.drop (get_first_reencode_pos l)).map (reencode_elt H) =
      l.map (reencode_elt H) := by
  conv_rhs => rw [← List.take_append_drop (get_first_reencode_pos l) l]
  rw [List.map_append, map_take_first]

/-- With no position to re-encode the loop over every position changes nothing. -/
theorem map_eq_self_of_no_offender (H : Host) (l : List (Option CHARSXP))
    (h : get_first_reencode_pos l ≥ l.length) : l.map (reencode_elt H) = l := by
  have hle := get_first_reencode_pos_le l
  have heq : get_first_reencode_pos l = l.length := by omega
  have := map_take_first H l
  rw [heq, List.take_length] at this
  exact this

/-- With no element to re-encode the first position is the length. -/
theorem get_first_reencode_pos_of_canonical (l : List (Option CHARSXP))
    (h : ∀ v ∈ l, needs_reencode v = false) : get_first_reencode_pos l = l.length := by
  induction l with
  | nil => rfl
  | cons v rest ih =>
    unfold get_first_reencode_pos
    have hv := h v (List.mem_cons_self _ _)
    simp [hv, ih (fun w hw => h w (List.mem_cons_of_mem _ hw))]

/-- The data of a character vector are its elements. -/
theorem STRING_PTR_eq_of_TYPEOF (x : SEXP) (hx : TYPEOF x = .STRSXP) :
    x.payload = .str (STRING_PTR x) := by
  unfold TYPEOF at hx
  unfold STRING_PTR
  cases hp : x.payload <;> simp [hp] at hx ⊢

/-- On a character vector the part of `reencode_char` below the factor test is
the loop body run over every element, attributes kept. -/
theorem reencode_char_vector_eq (H : Host) (x : SEXP) (hx : TYPEOF x = .STRSXP) :
    reencode_char_vector H x =
      { payload := .str ((STRING_PTR x).map (reencode_elt H)), attrib := x.attrib } := by
  have hxc : CharacterVector H x = x := by simp [CharacterVector, hx]
  unfold reencode_char_vector
  simp only [hxc]
  split
  · next h =>
    rw [map_eq_self_of_no_offender H _ h, ← STRING_PTR_eq_of_TYPEOF x hx]
  · rw [first_offender_unobservable]

/-- The loop body run over every element is the whole-column normalisation of
the specification. -/
theorem reencode_elt_eq_whole (H : Host) (l : List (Option CHARSXP)) :
    l.map (reencode_elt H) = normalize_text_whole_column H l := by
  unfold normalize_text_whole_column
  apply List.map_congr_left
  intro v _
  cases v with
  | none => rfl
  | some s => cases h1 : s.is_ascii <;> cases h2 : s.is_utf8 <;> simp [reencode_elt, h1, h2]

/-- When the conversion yields canonical elements, the loop body leaves nothing
to re-encode. -/
theorem needs_reencode_reencode_elt (H : Host)
    (hcanon : ∀ s, (H.translateCharUTF8 s).is_ascii = true ∨ (H.translateCharUTF8 s).is_utf8 = true)
    (v : Option CHARSXP) : needs_reencode (reencode_elt H v) = false := by
  cases v with
  | none => rfl
  | some s =>
    simp only [reencode_elt]
    split_ifs with h
    · rcases hcanon s with h1 | h1 <;> simp [needs_reencode, h1]
    · simpa [needs_reencode] using h

/-- A character vector with nothing to re-encode is returned as it is. -/
theorem reencode_char_of_canonical (H : Host) (x : SEXP) (hx : TYPEOF x = .STRSXP)
    (hall : ∀ v ∈ STRING_PTR x, needs_reencode v = false) : reencode_char H x = x := by
  have hnf : Rf_isFactor x = false := by simp [Rf_isFactor, hx]
  have hxc : CharacterVector H x = x := by simp [CharacterVector, hx]
  simp only [reencode_char, hnf, Bool.false_eq_true, if_false, reencode_char_vector, hxc]
  rw [get_first_reencode_pos_of_canonical _ hall]
  simp

/-- The normalised form of a character column or of a factor is a character vector. -/
theorem TYPEOF_reencode_char (H : Host) (x : SEXP)
    (hx : TYPEOF x = .STRSXP ∨ (TYPEOF x = .INTSXP ∧ Rf_inherits x "factor" = true)) :
    TYPEOF (reencode_char H x) = .STRSXP := by
  rcases hx with hx | ⟨hx, hf⟩
  · have hnf : Rf_isFactor x = false := by simp [Rf_isFactor, hx]
    simp only [reencode_char, hnf, Bool.false_eq_true, if_false]
    rw [reencode_char_vector_eq H x hx]
    rfl
  · rw [reencode_char_of_factor H x hx hf]
    rfl

/-- C15: for every factor `x` with label sequence `L`, `reencode_char(x)` is
`reencode_factor(x)`, it has the length of `x`, and at every position `i` with
code `k = x[i]`: if `1 ≤ k ≤ length(L)` the result at `i` is the element
`k - 1` of `reencode_char(L)`; if `k` is `NA_INTEGER`, `k ≤ 0` or
`k > length(L)`, the result at `i` is `NA_STRING`. -/
theorem reencode_factor_expands (H : Host) (x : SEXP) (hx : Rf_isFactor x = true) :
    reencode_char H x = reencode_factor H x ∧
    (STRING_PTR (reencode_factor H x)).length = (INTEGER x).length ∧
    ∀ (i : Nat) (k : Int), (INTEGER x)[i]? = some k →
      ((1 ≤ k ∧ k ≤ (STRING_PTR (get_levels x)).length →
          ∃ v, (STRING_PTR (reencode_char H (get_levels x)))[(k - 1).toNat]? = some v ∧
            (STRING_PTR (reencode_factor H x))[i]? = some v) ∧
       (k = NA_INTEGER ∨ k ≤ 0 ∨ k > (STRING_PTR (get_levels x)).length →
          (STRING_PTR (reencode_factor H x))[i]? = some none)) := by
  have hlev : reencode_char_vector H (get_levels x) =
      { payload := .str ((STRING_PTR (get_levels x)).map (reencode_elt H)),
        attrib := (get_levels x).attrib } :=
    reencode_char_vector_eq H _ (by unfold get_levels; split <;> rfl)
  refine ⟨by simp [reencode_char, hx], by simp [reencode_factor, STRING_PTR], ?_⟩
  intro i k hk
  have hres : (STRING_PTR (reencode_factor H x))[i]? =
      some (if k ≤ 0 ∨ k > ((STRING_PTR (get_levels x)).length : Int) then none
            else ((STRING_PTR (get_levels x)).map (reencode_elt H)).getD (k - 1).toNat none) := by
    simp [reencode_factor, STRING_PTR, hlev, List.getElem?_map, hk]
  rw [hres, reencode_char_get_levels, hlev]
  constructor
  · rintro ⟨h1, h2⟩
    have hlt : (k - 1).toNat < ((STRING_PTR (get_levels x)).map (reencode_elt H)).length := by
      rw [List.length_map]
      omega
    refine ⟨((STRING_PTR (get_levels x)).map (reencode_elt H))[(k - 1).toNat], ?_, ?_⟩
    · simp only [STRING_PTR]
      exact List.getElem?_eq_getElem hlt
    · have hn : ¬ (k ≤ 0 ∨ k > ((STRING_PTR (get_levels x)).length : Int)) := by omega
      rw [if_neg hn, List.getD_eq_getElem _ _ hlt]
  · intro h
    have hn : k ≤ 0 ∨ k > ((STRING_PTR (get_levels x)).length : Int) := by
      rcases h with h | h | h
      · left; rw [h]; decide
      · left; exact h
      · right; exact h
    rw [if_pos hn]

/-- C15, at the factor of codes `1, 2, 0, 3, NA` and levels `c("x", "y")`. -/
theorem reencode_factor_expands_witness :
    (STRING_PTR (reencode_factor sample_host
        (sample_factor [1, 2, 0, 3, NA_INTEGER] ["x", "y"]))).length =
      (INTEGER (sample_factor [1, 2, 0, 3, NA_INTEGER] ["x", "y"])).length ∧
    STRING_PTR (reencode_factor sample_host
        (sample_factor [1, 2, 0, 3, NA_INTEGER] ["x", "y"])) =
      [ascii "x", ascii "y", none, none, none] :=
  ⟨(reencode_factor_expands sample_host
      (sample_factor [1, 2, 0, 3, NA_INTEGER] ["x", "y"]) rfl).2.1, by decide⟩

/-- C16: assuming the conversion of a value yields a value marked ASCII or
UTF-8, for every character column and every factor `c`,
`reencode_char(reencode_char(c))` is `reencode_char(c)`: same length and same
value at every position. -/
theorem reencode_char_idempotent (H : Host) (c : SEXP)
    (hcanon : ∀ s, (H.translateCharUTF8 s).is_ascii = true ∨ (H.translateCharUTF8 s).is_utf8 = true)
    (hc : TYPEOF c = .STRSXP ∨ Rf_isFactor c = true) :
    reencode_char H (reencode_char H c) = reencode_char H c ∧
    (STRING_PTR (reencode_char H (reencode_char H c))).length =
      (STRING_PTR (reencode_char H c)).length ∧
    ∀ i : Nat, (STRING_PTR (reencode_char H (reencode_char H c)))[i]? =
      (STRING_PTR (reencode_char H c))[i]? := by
  have key : reencode_char H (reencode_char H c) = reencode_char H c := by
    rcases hc with hc | hc
    · have hnf : Rf_isFactor c = false := by simp [Rf_isFactor, hc]
      have hr : reencode_char H c =
          { payload := .str ((STRING_PTR c).map (reencode_elt H)), attrib := c.attrib } := by
        simp only [reencode_char, hnf, Bool.false_eq_true, if_false]
        exact reencode_char_vector_eq H c hc
      rw [hr]
      refine reencode_char_of_canonical H _ (by rfl) ?_
      intro v hv
      simp only [STRING_PTR, List.mem_map] at hv
      obtain ⟨w, _, rfl⟩ := hv
      exact needs_reencode_reencode_elt H hcanon w
    · have hr : reencode_char H c = reencode_factor H c := by simp [reencode_char, hc]
      rw [hr]
      refine reencode_char_of_canonical H _ (by rfl) ?_
      intro v hv
      simp only [reencode_factor, STRING_PTR, List.mem_map] at hv
      obtain ⟨xi, _, rfl⟩ := hv
      split_ifs
      · rfl
      · have hlev : reencode_char_vector H (get_levels c) =
            { payload := .str ((STRING_PTR (get_levels c)).map (reencode_elt H)),
              attrib := (get_levels c).attrib } :=
          reencode_char_vector_eq H _ (by unfold get_levels; split <;> rfl)
        rw [hlev]
        simp only [List.getD_eq_getElem?_getD]
        cases hg : ((STRING_PTR (get_levels c)).map (reencode_elt H))[(xi - 1).toNat]? with
        | none => rfl
        | some w =>
          simp only [Option.getD_some]
          rw [List.getElem?_map] at hg
          cases hq : (STRING_PTR (get_levels c))[(xi - 1).toNat]? with
          | none => rw [hq] at hg; cases hg
          | some u =>
            rw [hq] at hg
            simp only [Option.map_some', Option.some.injEq] at hg
            rw [← hg]
            exact needs_reencode_reencode_elt H hcanon u
  exact ⟨key, by rw [key], fun i => by rw [key]⟩

/-- C16, at a column with two values that are neither ASCII nor UTF-8. -/
theorem reencode_char_idempotent_witness :
    reencode_char sample_host (reencode_char sample_host sample_chr_latin1) =
      reencode_char sample_host sample_chr_latin1 :=
  (reencode_char_idempotent sample_host sample_chr_latin1
    (fun _ => Or.inr rfl) (Or.inl rfl)).1

/-- C17: for every character column `c`, the content of `reencode_char(c)` is
the whole-column normalisation of the content of `c` (every value that is not
missing and not ASCII or UTF-8 re-encoded, every other value untouched), so
the start at the first offender cannot be observed; the attributes are those
of `c`, and when no value of `c` needs re-encoding the result is `c` itself. -/
theorem whole_column_refinement (H : Host) (c : SEXP) (hc : TYPEOF c = .STRSXP) :
    STRING_PTR (reencode_char H c) = normalize_text_whole_column H (STRING_PTR c) ∧
    (reencode_char H c).attrib = c.attrib ∧
    ((∀ v ∈ STRING_PTR c, needs_reencode v = false) → reencode_char H c = c) := by
  have hnf : Rf_isFactor c = false := by simp [Rf_isFactor, hc]
  have hr : reencode_char H c =
      { payload := .str ((STRING_PTR c).map (reencode_elt H)), attrib := c.attrib } := by
    simp only [reencode_char, hnf, Bool.false_eq_true, if_false]
    exact reencode_char_vector_eq H c hc
  refine ⟨?_, ?_, ?_⟩
  · rw [hr, ← reencode_elt_eq_whole]
    rfl
  · rw [hr]
  · intro hall
    have hxc : CharacterVector H c = c := by simp [CharacterVector, hc]
    simp only [reencode_char, hnf, Bool.false_eq_true, if_false, reencode_char_vector, hxc]
    rw [get_first_reencode_pos_of_canonical _ hall]
    simp

/-- C17, at a column with two values that are neither ASCII nor UTF-8. -/
theorem whole_column_refinement_witness :
    STRING_PTR (reencode_char sample_host sample_chr_latin1) =
      normalize_text_whole_column sample_host (STRING_PTR sample_chr_latin1) ∧
    (reencode_char sample_host sample_chr_latin1).attrib = sample_chr_latin1.attrib ∧
    ((∀ v ∈ STRING_PTR sample_chr_latin1, needs_reencode v = false) →
      reencode_char sample_host sample_chr_latin1 = sample_chr_latin1) :=
  whole_column_refinement sample_host sample_chr_latin1 rfl

/-! ## Warnings -/

/-- C18: with `warn`, `warn_bad_var` raises exactly one warning, of the form
"Variable `<name>` <message>" when the two names are equal and of the form
"Variable `<left>`/`<right>` <message>" when they differ; without `warn` it
raises none. -/
theorem warn_bad_var_forms (var_left var_right message : String) :
    (var_left = var_right →
      warn_bad_var var_left var_right message true =
        ["Variable `" ++ var_left ++ "` " ++ message]) ∧
    (var_left ≠ var_right →
      warn_bad_var var_left var_right message true =
        ["Variable `" ++ var_left ++ "`/`" ++ var_right ++ "` " ++ message]) ∧
    (warn_bad_var var_left var_right message true).length = 1 ∧
    warn_bad_var var_left var_right message false = [] := by
  refine ⟨?_, ?_, ?_, ?_⟩
  · intro h
    simp [warn_bad_var, h]
  · intro h
    simp [warn_bad_var, h]
  · by_cases h : var_left = var_right <;> simp [warn_bad_var, h]
  · simp [warn_bad_var]

/-- C19 as stated fails: on a labelled integer column and a plain one, not a
pair of timestamps, with `attr_equal` answering `false`, `join_visitor` called
without `warn` returns a strategy built from the columns and names alone, and
`check_attribute_compatibility` on these arguments raises the warning; it
takes no `warn` flag. -/
theorem attribute_check_ignores_warn_counterexample :
    ¬ (Rf_inherits sample_int_labelled "POSIXct" = true ∧
        Rf_inherits sample_int "POSIXct" = true) ∧
    sample_host.attr_equal sample_int_labelled sample_int = false ∧
    join_visitor sample_host sample_int_labelled sample_int "x" "y" false true =
      ⟨[], .ok (.JoinVisitorImpl .INTSXP .INTSXP true sample_int_labelled sample_int
                  "x" "y")⟩ ∧
    check_attribute_compatibility sample_host sample_int_labelled sample_int "x" "y" =
      ["Variable `x`/`y` has different attributes on RHS and LHS of join"] := by
  refine ⟨by decide, by decide, rfl, by decide⟩

/-- C19, amended: for every pair of columns that is not a pair of timestamps,
`check_attribute_compatibility` raises the warning "has different attributes on
RHS and LHS of join", in the one-name or two-name form, exactly when
`attr_equal` answers `false`, and nothing when it answers `true`; it never
stops, and no `warn` flag enters. -/
theorem attribute_check_advisory (H : Host) (left right : SEXP) (nl nr : String)
    (h : ¬ (Rf_inherits left "POSIXct" = true ∧ Rf_inherits right "POSIXct" = true)) :
    check_attribute_compatibility H left right nl nr =
      if H.attr_equal left right = true then []
      else
        [if nl = nr then
          "Variable `" ++ nl ++ "` " ++ "has different attributes on RHS and LHS of join"
        else
          "Variable `" ++ nl ++ "`/`" ++ nr ++ "` " ++
            "has different attributes on RHS and LHS of join"] := by
  have h2 : (Rf_inherits left "POSIXct" && Rf_inherits right "POSIXct") = false := by
    cases h1 : Rf_inherits left "POSIXct" <;> cases h3 : Rf_inherits right "POSIXct" <;>
      simp_all
  cases ha : H.attr_equal left right <;> by_cases hn : nl = nr <;>
    simp [check_attribute_compatibility, warn_bad_var, h2, ha, hn]

/-- C19 amended, at a labelled integer column and a plain one of the same name. -/
theorem attribute_check_advisory_witness :
    check_attribute_compatibility sample_host sample_int_labelled sample_int "x" "x" =
      ["Variable `x` has different attributes on RHS and LHS of join"] :=
  attribute_check_advisory sample_host sample_int_labelled sample_int "x" "x" (by decide)

/-! ## Kind consistency -/

/-- Outside the pair Double/Logical, a strategy returned by the switch is
instantiated with the storage types of the columns it is bound to. -/
theorem switch_kinds (H : Host) (left right : SEXP) (nl nr : String) (warn na : Bool)
    (w : List String) (v : JoinVisitor)
    (hv : join_visitor.switch H na left right nl nr warn = some (w, v))
    (hfb : ¬ (TYPEOF left = .REALSXP ∧ TYPEOF right = .LGLSXP)) :
    v.LHS_RTYPE = some (TYPEOF v.left) ∧ v.RHS_RTYPE = some (TYPEOF v.right) := by
  unfold join_visitor.switch join_visitor.case_LGLSXP at hv
  cases hl : TYPEOF left <;> cases hr : TYPEOF right <;> rw [hl, hr] at hv hfb <;>
    dsimp only at hv <;>
    first
    | (cases hv; done)
    | (exfalso; apply hfb; constructor <;> rfl)
    | (cases hv
       simp [JoinVisitor.LHS_RTYPE, JoinVisitor.RHS_RTYPE, JoinVisitor.left,
        JoinVisitor.right, TYPEOF_reencode_char, hl, hr])
    | (split_ifs at hv <;>
        first
        | (cases hv; done)
        | (cases hv
           simp [JoinVisitor.LHS_RTYPE, JoinVisitor.RHS_RTYPE, JoinVisitor.left,
            JoinVisitor.right, hl, hr]
           done)
        | (cases hv
           simp only [Bool.and_eq_true] at *
           simp [JoinVisitor.LHS_RTYPE, JoinVisitor.RHS_RTYPE, JoinVisitor.left,
            JoinVisitor.right, TYPEOF_reencode_char, *]))

/-- Outside the pair Double/Logical, every strategy `join_visitor` returns is
instantiated with the storage types of the columns it is bound to. -/
theorem kinds_consistent_elsewhere (H : Host) (left right : SEXP) (nl nr : String)
    (warn na : Bool) (v : JoinVisitor)
    (hv : (join_visitor H left right nl nr warn na).result = .ok v)
    (hfb : ¬ (TYPEOF left = .REALSXP ∧ TYPEOF right = .LGLSXP)) :
    (∀ t, v.LHS_RTYPE = some t → t = TYPEOF v.left) ∧
    (∀ t, v.RHS_RTYPE = some t → t = TYPEOF v.right) := by
  by_cases hd : Rf_inherits left "Date" = Rf_inherits right "Date"
  swap
  · rw [join_visitor_one_date H left right nl nr warn na hd] at hv
    cases hv
  cases hld : Rf_inherits left "Date"
  · have hrd : Rf_inherits right "Date" = false := by rw [← hd, hld]
    by_cases ht : Rf_inherits left "POSIXct" = Rf_inherits right "POSIXct"
    swap
    · rw [join_visitor_one_posixct H left right nl nr warn na hld hrd ht] at hv
      cases hv
    cases hlt : Rf_inherits left "POSIXct"
    · have hrt : Rf_inherits right "POSIXct" = false := by rw [← ht, hlt]
      rw [join_visitor_untagged H left right nl nr warn na hld hrd hlt hrt] at hv
      cases hs : join_visitor.switch H na left right nl nr warn with
      | none => rw [hs] at hv; cases hv
      | some p =>
        obtain ⟨w, u⟩ := p
        rw [hs] at hv
        cases hv
        obtain ⟨h1, h2⟩ := switch_kinds H left right nl nr warn na _ _ hs hfb
        constructor
        · intro t ht1
          rw [h1] at ht1
          exact (Option.some.inj ht1).symm
        · intro t ht1
          rw [h2] at ht1
          exact (Option.some.inj ht1).symm
    · have hrt : Rf_inherits right "POSIXct" = true := by rw [← ht, hlt]
      rw [join_visitor_both_posixct H left right nl nr warn na hld hrd hlt hrt] at hv
      cases hv
      constructor <;> intro t ht1 <;> cases ht1
  · have hrd : Rf_inherits right "Date" = true := by rw [← hd, hld]
    rw [join_visitor_both_date H left right nl nr warn na hld hrd] at hv
    unfold date_join_visitor date_join_visitor_right at hv
    cases hl : TYPEOF left <;> cases hr : TYPEOF right <;> rw [hl, hr] at hv <;>
      dsimp only at hv <;> cases hv <;>
      simp [JoinVisitor.LHS_RTYPE, JoinVisitor.RHS_RTYPE, JoinVisitor.left,
        JoinVisitor.right, hl, hr]

/-- C20: kind consistency fails on a double left column with a logical right
column (neither tagged Date nor POSIXct): `join_visitor` returns a strategy
instantiated with the left storage type LGLSXP and bound to the double left
column, because `case REALSXP` runs on into `case LGLSXP`. -/
theorem float_left_under_boolean_strategy (H : Host) (left right : SEXP) (nl nr : String)
    (warn na : Bool)
    (hld : Rf_inherits left "Date" = false) (hrd : Rf_inherits right "Date" = false)
    (hlt : Rf_inherits left "POSIXct" = false) (hrt : Rf_inherits right "POSIXct" = false)
    (hl : TYPEOF left = .REALSXP) (hr : TYPEOF right = .LGLSXP) :
    ∃ v, (join_visitor H left right nl nr warn na).result = .ok v ∧
      v.LHS_RTYPE = some .LGLSXP ∧ TYPEOF v.left = .REALSXP ∧
      v.LHS_RTYPE ≠ some (TYPEOF v.left) := by
  refine ⟨.JoinVisitorImpl .LGLSXP .LGLSXP na left right nl nr, ?_, rfl, hl, ?_⟩
  · rw [join_visitor_untagged H left right nl nr warn na hld hrd hlt hrt]
    simp [join_visitor.switch, join_visitor.case_LGLSXP, hl, hr]
  · simp [JoinVisitor.LHS_RTYPE, JoinVisitor.left, hl]

/-- C20, at the columns `c(1, 2, 3)` and `c(TRUE, FALSE, TRUE)`. -/
theorem float_left_under_boolean_strategy_witness :
    ∃ v, (join_visitor sample_host sample_dbl sample_lgl "x" "y" true true).result = .ok v ∧
      v.LHS_RTYPE = some .LGLSXP ∧ TYPEOF v.left = .REALSXP ∧
      v.LHS_RTYPE ≠ some (TYPEOF v.left) :=
  float_left_under_boolean_strategy sample_host sample_dbl sample_lgl "x" "y" true true
    rfl rfl rfl rfl rfl rfl

end dplyr
